import Mathlib

/-!
Verification of the Redfish reverse-proxy server of this repository.

The HTTP server component (constructor, router registration, Start, Shutdown)
is embedded from the source file of package main. The request classifier,
circuit tracker and response-origin conventions belong to components whose
source is not part of the checked tree; those are modelled from the
specification, as marked on each definition.
-/

set_option autoImplicit false

namespace RedfishProxy

/-- Front-side HTTP request as seen by the proxy: method, Host header, URL
path, raw query string and body bytes. Paths and queries are modelled at
character level so that byte-for-byte claims are expressible. -/
structure Request where
  method : String
  host : String
  path : List Char
  rawQuery : List Char
  body : List Nat
deriving DecidableEq

/-- Web section of the proxy configuration, with the fields the server
constructor reads: Addresses, WebSystemdSocket, WebConfigFile and
EnableDebugServer. -/
structure WebConfig where
  addresses : List String
  webSystemdSocket : Bool
  webConfigFile : String
  enableDebugServer : Bool
deriving DecidableEq

/-- Proxy configuration passed to NewRedfishProxyServer. The Redfish target
set is abstracted to the list of known target identifiers, which is what the
classifier consults. -/
structure Config where
  web : WebConfig
  targets : List (List Char)
deriving DecidableEq

/-- Fields of the embedded http.Server that NewRedfishProxyServer sets:
listen address and the three fixed timeouts in seconds (ReadTimeout 10,
WriteTimeout 10, ReadHeaderTimeout 2). -/
structure HTTPServer where
  addr : String
  readTimeoutSec : Nat
  writeTimeoutSec : Nat
  readHeaderTimeoutSec : Nat
deriving DecidableEq

/-- Handlers reachable from the mux router: the pprof debug handler
(http.DefaultServeMux) and the multi-host reverse-proxy handler. -/
inductive Handler where
  | debug
  | proxy
deriving DecidableEq

/-- Test that the first argument is an initial run of the second. -/
def hasPref : List Char → List Char → Bool
  | [], _ => true
  | _ :: _, [] => false
  | p :: ps, c :: cs => p == c && hasPref ps cs

/-- Path template of the debug route. -/
def debugPathChars : List Char := "/debug/".toList

/-- Host with any port suffix removed: the characters before the first
colon. The mux host matcher applies this to the request host whenever the
host template carries no port of its own. -/
def stripPort : List Char → List Char
  | [] => []
  | c :: cs => if c = ':' then [] else c :: stripPort cs

/-- Matcher of the debug route registered by NewRedfishProxyServer:
PathPrefix /debug/, method GET, and Host localhost — matched against the
request's Host header with its port stripped, since the registered host
template names no port. -/
def debugRouteMatch (r : Request) : Bool :=
  hasPref debugPathChars r.path && r.method == "GET" &&
    stripPort r.host.toList == "localhost".toList

/-- Routes registered on the gorilla mux router, in registration order: the
debug route only when EnableDebugServer is set, then the catch-all
PathPrefix / route to the reverse-proxy handler. -/
def buildRoutes (c : Config) : List ((Request → Bool) × Handler) :=
  (if c.web.enableDebugServer then [(debugRouteMatch, Handler.debug)] else [])
    ++ [(fun _ => true, Handler.proxy)]

/-- First route whose matcher accepts the request, as the mux router
dispatches; the final catch-all guarantees a match. -/
def firstMatch : List ((Request → Bool) × Handler) → Request → Handler
  | [], _ => Handler.proxy
  | q :: qs, r => if q.1 r then q.2 else firstMatch qs r

/-- Dispatch of a request by the router built for a configuration. -/
def routeRequest (c : Config) (r : Request) : Handler :=
  firstMatch (buildRoutes c) r

/-- Server record built by NewRedfishProxyServer: the embedded http.Server
and the configuration that the router and proxy handler close over. -/
structure RedfishProxyServer where
  server : HTTPServer
  config : Config
deriving DecidableEq

/-- Shallow embedding of NewRedfishProxyServer. Reading c.Web.Addresses[0]
panics in Go when the list is empty; the panic is modelled as none. -/
def newRedfishProxyServer (c : Config) : Option RedfishProxyServer :=
  match c.web.addresses with
  | [] => none
  | a :: _ =>
      some { server := { addr := a, readTimeoutSec := 10, writeTimeoutSec := 10,
                         readHeaderTimeoutSec := 2 },
             config := c }

/-- Result of web.ListenAndServe or http.Server.Shutdown as matched by the
server code: the sentinel http.ErrServerClosed or another error. -/
inductive GoError where
  | serverClosed
  | other (msg : String)
deriving DecidableEq

/-- Test used at the errors.Is call site in Start. -/
def isServerClosed : GoError → Bool
  | .serverClosed => true
  | .other _ => false

/-- Observable side effects of the server lifecycle methods. serverShutdown
is the call to http.Server.Shutdown, which stops accepting new front-side
connections and waits for in-flight requests up to the context deadline.
poolShutdown stands for closing the idle upstream connections held by the
per-target client pool; it is listed so that its absence is expressible. -/
inductive Effect where
  | logInfo (msg : String)
  | logError (msg : String)
  | listenAndServe
  | serverShutdown
  | poolShutdown
deriving DecidableEq

/-- Application name used in the lifecycle log lines; its value is declared
elsewhere in package main and is immaterial to every claim. -/
def appName : String := "redfish_proxy"

/-- Shallow embedding of RedfishProxyServer.Start, parameterised by the
result of web.ListenAndServe: it logs, runs the listener, and returns nil
unless the listener failed with an error other than http.ErrServerClosed. -/
def start (listenResult : Option GoError) : List Effect × Option GoError :=
  match listenResult with
  | some e =>
      if isServerClosed e then
        ([Effect.logInfo ("Starting " ++ appName), Effect.listenAndServe], none)
      else
        ([Effect.logInfo ("Starting " ++ appName), Effect.listenAndServe,
          Effect.logError "Failed to Listen and Serve HTTP server"], some e)
  | none => ([Effect.logInfo ("Starting " ++ appName), Effect.listenAndServe], none)

/-- Shallow embedding of RedfishProxyServer.Shutdown, parameterised by the
result of http.Server.Shutdown(ctx): it logs, performs the graceful server
shutdown, and returns that call's error. No other effect is performed. -/
def shutdown (serverShutdownResult : Option GoError) : List Effect × Option GoError :=
  match serverShutdownResult with
  | some e =>
      ([Effect.logInfo ("Stopping " ++ appName), Effect.serverShutdown,
        Effect.logError "Failed to stop exporter HTTP server"], some e)
  | none => ([Effect.logInfo ("Stopping " ++ appName), Effect.serverShutdown], none)

/-- Routing errors of the request classifier. -/
inductive RoutingError where
  | emptyTarget
  | unknownTarget
  | malformedRequest
deriving DecidableEq

/-- Run of leading slashes removed from a path. -/
def dropSlashes : List Char → List Char
  | [] => []
  | c :: cs => if c = '/' then dropSlashes cs else c :: cs

/-- Characters of the first segment: everything up to the next slash. -/
def takeSeg : List Char → List Char
  | [] => []
  | c :: cs => if c = '/' then [] else c :: takeSeg cs

/-- Remainder of the path after the first segment, keeping the slash that
terminates the segment. -/
def dropSeg : List Char → List Char
  | [] => []
  | c :: cs => if c = '/' then c :: cs else dropSeg cs

/-- Modelled from the spec: the request classifier of the reverse-proxy
engine is not among the source files. Per the routing rule, the first
non-empty path segment of the incoming request path is the target
identifier and the remainder of the path, including its leading slash, is
the upstream Redfish path; EmptyTarget when the path has no non-empty
segment, UnknownTarget when the identifier is not a registered target. -/
def classify (reg : List (List Char)) (path : List Char) :
    Except RoutingError (List Char × List Char) :=
  if dropSlashes path = [] then .error .emptyTarget
  else if takeSeg (dropSlashes path) ∈ reg then
    .ok (takeSeg (dropSlashes path), dropSeg (dropSlashes path))
  else .error .unknownTarget

/-- Upstream request built from a classified front-side request. -/
structure UpstreamRequest where
  targetId : List Char
  path : List Char
  rawQuery : List Char
  method : String
  body : List Nat
deriving DecidableEq

/-- Modelled from the spec: classification followed by upstream request
construction; the query string, method and body are carried over
unchanged, the path is the remainder produced by classify. -/
def forwardRequest (reg : List (List Char)) (r : Request) :
    Except RoutingError UpstreamRequest :=
  match classify reg r.path with
  | .error e => .error e
  | .ok q =>
      .ok { targetId := q.1, path := q.2, rawQuery := r.rawQuery,
            method := r.method, body := r.body }

/-- Circuit states of the per-target failure gate. -/
inductive CircuitState where
  | closed
  | opened
  | halfOpen
deriving DecidableEq

/-- Per-target circuit record: state, consecutive-failure count, the time
the circuit opened, and the time of the first failure of the current
consecutive run. Times are in seconds. -/
structure Circuit where
  state : CircuitState
  consecutiveFailures : Nat
  openedAt : Nat
  runStart : Nat
deriving DecidableEq

/-- Outcome of one upstream dispatch as seen by the circuit tracker. -/
inductive UpstreamOutcome where
  | transportError
  | deadlineExceeded
  | status (code : Nat)
deriving DecidableEq

/-- Modelled from the spec: a circuit failure is a transport error, a
deadline exceeded, or an upstream status of at least 500. -/
def isFailure : UpstreamOutcome → Bool
  | .transportError => true
  | .deadlineExceeded => true
  | .status code => decide (500 ≤ code)

/-- Modelled from the spec: failure threshold F, default 5. -/
def defaultF : Nat := 5

/-- Modelled from the spec: rolling window W in seconds, default 60. -/
def defaultW : Nat := 60

/-- Modelled from the spec: the circuit tracker is not among the source
files; this is the update it performs after a dispatch at time t. In the
closed state a failure extends the consecutive-failure run (a run starts
at the time of its first failure) and the circuit opens when the count
reaches F within the window W, while a success resets the count. In the
half-open state one success closes the circuit and one failure re-opens
it. The open state is left only by the cooldown timer, not by recording. -/
def recordOutcome (F W t : Nat) (c : Circuit) (o : UpstreamOutcome) : Circuit :=
  match c.state with
  | .closed =>
      if isFailure o then
        if F ≤ c.consecutiveFailures + 1 ∧
            t - (if c.consecutiveFailures = 0 then t else c.runStart) ≤ W then
          { state := .opened, consecutiveFailures := c.consecutiveFailures + 1,
            openedAt := t,
            runStart := if c.consecutiveFailures = 0 then t else c.runStart }
        else
          { c with consecutiveFailures := c.consecutiveFailures + 1,
                   runStart := if c.consecutiveFailures = 0 then t else c.runStart }
      else
        { c with consecutiveFailures := 0 }
  | .halfOpen =>
      if isFailure o then
        { state := .opened, consecutiveFailures := c.consecutiveFailures + 1,
          openedAt := t, runStart := c.runStart }
      else
        { state := .closed, consecutiveFailures := 0,
          openedAt := c.openedAt, runStart := c.runStart }
  | .opened => c

/-- HTTP response: status, headers as name-value pairs, body bytes. -/
structure Response where
  status : Nat
  headers : List (String × String)
  body : List Nat
deriving DecidableEq

/-- Hop-by-hop headers stripped at the proxy boundary, per the RFC 7230
list. -/
def hopByHop : List String :=
  ["Connection", "Keep-Alive", "Proxy-Authenticate", "Proxy-Authorization",
   "TE", "Trailer", "Transfer-Encoding", "Upgrade"]

/-- Test for a header with the given name and value. -/
def hasHeaderVal (r : Response) (k v : String) : Bool :=
  r.headers.any (fun p => p.1 == k && p.2 == v)

/-- Modelled from the spec: a response originated by the proxy itself
carries the header X-Proxy-Origin with value true. -/
def proxyErrorResponse (status : Nat) (body : List Nat) : Response :=
  { status := status, headers := [("X-Proxy-Origin", "true")], body := body }

/-- Modelled from the spec: an upstream response passed through the proxy
has its hop-by-hop headers stripped and is otherwise forwarded as
received; no header is added. -/
def passThrough (u : Response) : Response :=
  { u with headers := u.headers.filter (fun p => !(hopByHop.contains p.1)) }

/-- Terminal outcome of one dispatched request, following the dispatcher
state machine. -/
inductive DispatchOutcome where
  | missingCredentials
  | invalidCredentials
  | forbidden
  | routing (e : RoutingError)
  | circuitOpen (retryAfterSec : Nat)
  | poolConfigError
  | transportError
  | deadlineExceeded
  | upstreamResponded (u : Response)
deriving DecidableEq

/-- Modelled from the spec: the dispatcher maps each terminal outcome to an
HTTP response; proxy-originated statuses are 400 for an empty or malformed
target, 401 for missing or invalid front-side credentials, 403 forbidden,
404 unknown target, 500 pool configuration error, 502 transport error, 503
circuit open with a Retry-After header, 504 deadline exceeded, and an
upstream response is passed through. -/
def respond : DispatchOutcome → Response
  | .missingCredentials => proxyErrorResponse 401 []
  | .invalidCredentials => proxyErrorResponse 401 []
  | .forbidden => proxyErrorResponse 403 []
  | .routing .emptyTarget => proxyErrorResponse 400 []
  | .routing .malformedRequest => proxyErrorResponse 400 []
  | .routing .unknownTarget => proxyErrorResponse 404 []
  | .circuitOpen s =>
      { status := 503,
        headers := [("X-Proxy-Origin", "true"), ("Retry-After", toString s)],
        body := [] }
  | .poolConfigError => proxyErrorResponse 500 []
  | .transportError => proxyErrorResponse 502 []
  | .deadlineExceeded => proxyErrorResponse 504 []
  | .upstreamResponded u => passThrough u

/-- Concrete configuration with one listen address and the debug server
disabled, used to evaluate theorems on closed inputs. -/
def cfgA : Config :=
  { web := { addresses := ["localhost:5000"], webSystemdSocket := false,
             webConfigFile := "", enableDebugServer := false },
    targets := [['a']] }

/-- Server record the constructor produces from cfgA. -/
def serverA : RedfishProxyServer :=
  { server := { addr := "localhost:5000", readTimeoutSec := 10,
                writeTimeoutSec := 10, readHeaderTimeoutSec := 2 },
    config := cfgA }

/-- Concrete configuration with the debug server enabled. -/
def cfgDebug : Config :=
  { web := { addresses := ["localhost:5000"], webSystemdSocket := false,
             webConfigFile := "", enableDebugServer := true },
    targets := [['a']] }

/-- Concrete request: POST to a debug path on Host localhost. -/
def reqPost : Request :=
  { method := "POST", host := "localhost", path := "/debug/pprof".toList,
    rawQuery := [], body := [] }

/-- C9: NewRedfishProxyServer reads element 0 of Web.Addresses, so it fails
(panics) exactly on an empty address list, and otherwise the server's
listen address is the first configured address. -/
theorem newRedfishProxyServer_requires_address :
    (∀ c : Config, newRedfishProxyServer c = none ↔ c.web.addresses = []) ∧
    (∀ (c : Config) (s : RedfishProxyServer),
        newRedfishProxyServer c = some s → s.server.addr = c.web.addresses.headD "") := by
  constructor
  · intro c
    cases h : c.web.addresses <;> simp [newRedfishProxyServer, h]
  · intro c s hs
    cases h : c.web.addresses with
    | nil => simp [newRedfishProxyServer, h] at hs
    | cons a rest =>
        simp [newRedfishProxyServer, h] at hs
        subst hs
        simp [h]

/-- C10: Start returns nil when the listener exits without error or with
http.ErrServerClosed, and returns the listener's error unchanged in every
other case. -/
theorem start_error_mapping :
    (start none).2 = none ∧
    (start (some GoError.serverClosed)).2 = none ∧
    (∀ e : GoError, isServerClosed e = false → (start (some e)).2 = some e) := by
  refine ⟨rfl, rfl, ?_⟩
  intro e he
  simp [start, he]

/-- C10 witness: the mapping evaluated on a concrete non-sentinel error. -/
theorem start_error_mapping_witness :
    (start (some (GoError.other "boom"))).2 = some (GoError.other "boom") :=
  start_error_mapping.2.2 (GoError.other "boom") rfl

/-- C3 counterexample: a successful Shutdown performs no client-pool
shutdown, so idle upstream connections are not closed by Shutdown. -/
theorem shutdown_no_pool_shutdown :
    Effect.poolShutdown ∉ (shutdown none).1 ∧ (shutdown none).2 = none := by
  decide

/-- C3 amended: Shutdown logs, performs the HTTP server's graceful shutdown
(stop accepting new front-side connections and wait for in-flight requests
up to the context deadline) and returns that call's error; it never invokes
the client pool's shutdown. -/
theorem shutdown_behaviour :
    ∀ e : Option GoError,
      Effect.serverShutdown ∈ (shutdown e).1 ∧
      Effect.poolShutdown ∉ (shutdown e).1 ∧
      (shutdown e).2 = e := by
  intro e
  cases e with
  | none => refine ⟨by decide, by decide, rfl⟩
  | some err =>
      refine ⟨?_, ?_, rfl⟩
      · simp [shutdown]
      · simp [shutdown]

/-- C5 counterexample: the server built from a concrete configuration has
the fixed timeouts ReadTimeout 10 s, WriteTimeout 10 s and
ReadHeaderTimeout 2 s; none of them is the claimed 60 s default, and the
configuration carries no request-timeout knob at all. -/
theorem no_sixty_second_timeout :
    newRedfishProxyServer cfgA = some serverA ∧
    serverA.server.readTimeoutSec = 10 ∧
    serverA.server.writeTimeoutSec = 10 ∧
    serverA.server.readHeaderTimeoutSec = 2 ∧
    serverA.server.readTimeoutSec ≠ 60 ∧
    serverA.server.writeTimeoutSec ≠ 60 := by
  decide

/-- C5 amended: every constructed server applies the same fixed front-side
timeouts — ReadTimeout 10 s, WriteTimeout 10 s, ReadHeaderTimeout 2 s —
independent of the configuration; no configurable 60-second request
deadline is established at server construction. -/
theorem fixed_front_side_timeouts (c : Config) (s : RedfishProxyServer)
    (h : newRedfishProxyServer c = some s) :
    s.server.readTimeoutSec = 10 ∧ s.server.writeTimeoutSec = 10 ∧
    s.server.readHeaderTimeoutSec = 2 := by
  cases hA : c.web.addresses with
  | nil => simp [newRedfishProxyServer, hA] at h
  | cons a rest =>
      simp [newRedfishProxyServer, hA] at h
      subst h
      exact ⟨rfl, rfl, rfl⟩

/-- C5 amended witness: the fixed timeouts evaluated on a concrete
configuration. -/
theorem fixed_front_side_timeouts_witness :
    serverA.server.readTimeoutSec = 10 ∧ serverA.server.writeTimeoutSec = 10 ∧
    serverA.server.readHeaderTimeoutSec = 2 :=
  fixed_front_side_timeouts cfgA serverA (by decide)

/-- Routing reduces to a two-way test: the debug handler is chosen exactly
when the debug route is registered and its matcher accepts the request. -/
theorem routeRequest_eq (c : Config) (r : Request) :
    routeRequest c r =
      (if c.web.enableDebugServer ∧ debugRouteMatch r = true
       then Handler.debug else Handler.proxy) := by
  cases hE : c.web.enableDebugServer with
  | false => simp [routeRequest, buildRoutes, hE, firstMatch]
  | true =>
      cases hm : debugRouteMatch r with
      | false => simp [routeRequest, buildRoutes, hE, firstMatch, hm]
      | true => simp [routeRequest, buildRoutes, hE, firstMatch, hm]

/-- Concrete request: GET to a debug path with a Host header that carries
a port next to localhost. -/
def reqGetPort : Request :=
  { method := "GET", host := "localhost:5000", path := "/debug/pprof".toList,
    rawQuery := [], body := [] }

/-- C4 counterexample: with the debug server enabled, a GET to a debug
path whose Host header is localhost:5000 — not exactly localhost — is
nevertheless served by the debug handler, because the host matcher strips
the port before comparing. -/
theorem debug_route_serves_host_with_port :
    routeRequest cfgDebug reqGetPort = Handler.debug ∧
    reqGetPort.host ≠ "localhost" := by
  decide

/-- C4 amended: the debug handler serves a request exactly when the server
was built with EnableDebugServer set, the path begins with /debug/, the
method is GET and the Host header equals localhost once any port suffix is
stripped; in particular with EnableDebugServer unset no request reaches
the debug handler. -/
theorem debug_route_characterisation :
    ∀ (c : Config) (r : Request),
      routeRequest c r = Handler.debug ↔
        (c.web.enableDebugServer = true ∧ hasPref debugPathChars r.path = true ∧
         r.method = "GET" ∧ stripPort r.host.toList = "localhost".toList) := by
  intro c r
  rw [routeRequest_eq]
  by_cases h : c.web.enableDebugServer ∧ debugRouteMatch r = true
  · obtain ⟨hE, hm⟩ := h
    simp only [debugRouteMatch, Bool.and_eq_true, beq_iff_eq] at hm
    simp [hE, hm.1.1, hm.1.2, hm.2, debugRouteMatch]
  · rw [if_neg h]
    constructor
    · intro hcon
      exact absurd hcon (by simp)
    · intro ⟨hE, hp, hmeth, hhost⟩
      refine absurd ⟨hE, ?_⟩ h
      simp [debugRouteMatch, hp, hmeth]
      simpa using hhost

/-- C8: whenever the debug route does not claim a request — because the
debug server is disabled or its matcher rejects the request — the catch-all
route hands the request to the reverse-proxy handler, regardless of the
request's method and path. -/
theorem catch_all_proxy (c : Config) (r : Request)
    (h : ¬(c.web.enableDebugServer = true ∧ debugRouteMatch r = true)) :
    routeRequest c r = Handler.proxy := by
  rw [routeRequest_eq]
  exact if_neg h

/-- C8 witness: a POST to a debug path with the debug server enabled falls
through to the reverse-proxy handler. -/
theorem catch_all_proxy_witness : routeRequest cfgDebug reqPost = Handler.proxy :=
  catch_all_proxy cfgDebug reqPost (by decide)

/-- A path reduces to nothing exactly when it has no non-empty segment,
that is, when every character is a slash. -/
theorem dropSlashes_eq_nil_iff (path : List Char) :
    dropSlashes path = [] ↔ ∀ c ∈ path, c = '/' := by
  induction path with
  | nil => simp [dropSlashes]
  | cons c cs ih =>
      by_cases hc : c = '/'
      · subst hc
        simpa [dropSlashes] using ih
      · simp only [dropSlashes, if_neg hc]
        constructor
        · intro h
          exact absurd h (by simp)
        · intro hall
          exact absurd (hall c (by simp)) hc

/-- First-segment extraction on a slash-free identifier followed by a
slash. -/
theorem takeSeg_append (tid P : List Char) (h : '/' ∉ tid) :
    takeSeg (tid ++ '/' :: P) = tid := by
  induction tid with
  | nil => simp [takeSeg]
  | cons c cs ih =>
      have hc : ¬(c = '/') := by
        intro hcc
        exact h (by simp [hcc])
      have hcs : '/' ∉ cs := by
        intro hm
        exact h (List.mem_cons_of_mem _ hm)
      simp [takeSeg, hc, ih hcs]

/-- Remainder extraction on a slash-free identifier followed by a slash. -/
theorem dropSeg_append (tid P : List Char) (h : '/' ∉ tid) :
    dropSeg (tid ++ '/' :: P) = '/' :: P := by
  induction tid with
  | nil => simp [dropSeg]
  | cons c cs ih =>
      have hc : ¬(c = '/') := by
        intro hcc
        exact h (by simp [hcc])
      have hcs : '/' ∉ cs := by
        intro hm
        exact h (List.mem_cons_of_mem _ hm)
      simp [dropSeg, hc, ih hcs]

/-- Classification of a well-formed path over a known identifier. -/
theorem classify_known (reg : List (List Char)) (tid P : List Char)
    (hne : tid ≠ []) (hsl : '/' ∉ tid) (hknown : tid ∈ reg) :
    classify reg ('/' :: (tid ++ '/' :: P)) = Except.ok (tid, '/' :: P) := by
  obtain ⟨c, cs, rfl⟩ : ∃ c cs, tid = c :: cs := by
    cases tid with
    | nil => exact absurd rfl hne
    | cons c cs => exact ⟨c, cs, rfl⟩
  have hc : ¬(c = '/') := by
    intro hcc
    exact hsl (by simp [hcc])
  have hrest : dropSlashes ('/' :: ((c :: cs) ++ '/' :: P)) = (c :: cs) ++ '/' :: P := by
    simp [dropSlashes, hc]
  simp only [classify]
  rw [hrest, takeSeg_append _ _ hsl, dropSeg_append _ _ hsl]
  simp [hknown]

/-- C1: a request whose path is a slash, then a known identifier, then a
slash and a remainder P, is forwarded upstream with path exactly the
remainder including its leading slash, raw query unchanged byte for byte,
and method and body unchanged. -/
theorem classify_transparent (reg : List (List Char)) (tid P Q : List Char)
    (m hh : String) (b : List Nat)
    (hne : tid ≠ []) (hsl : '/' ∉ tid) (hknown : tid ∈ reg) :
    forwardRequest reg
        { method := m, host := hh, path := '/' :: (tid ++ '/' :: P),
          rawQuery := Q, body := b } =
      Except.ok { targetId := tid, path := '/' :: P, rawQuery := Q,
                  method := m, body := b } := by
  unfold forwardRequest
  rw [classify_known reg tid P hne hsl hknown]

/-- C1 witness: transparency evaluated on a concrete request. -/
theorem classify_transparent_witness :
    forwardRequest [['a']]
        { method := "GET", host := "localhost",
          path := '/' :: (['a'] ++ '/' :: ['r']),
          rawQuery := ['q'], body := [7] } =
      Except.ok { targetId := ['a'], path := '/' :: ['r'], rawQuery := ['q'],
                  method := "GET", body := [7] } :=
  classify_transparent [['a']] ['a'] ['r'] ['q'] "GET" "localhost" [7]
    (by decide) (by decide) (by decide)

/-- C2: classification yields EmptyTarget, answered with status 400,
exactly when the path has no non-empty segment; it yields UnknownTarget,
answered with status 404, exactly when the path has a first segment that
is not a registered target; no other routing error is produced. -/
theorem classify_error_characterisation :
    (∀ (reg : List (List Char)) (path : List Char),
        classify reg path = Except.error RoutingError.emptyTarget ↔
          ∀ c ∈ path, c = '/') ∧
    (∀ (reg : List (List Char)) (path : List Char),
        classify reg path = Except.error RoutingError.unknownTarget ↔
          (¬ ∀ c ∈ path, c = '/') ∧ takeSeg (dropSlashes path) ∉ reg) ∧
    (∀ (reg : List (List Char)) (path : List Char) (e : RoutingError),
        classify reg path = Except.error e →
          e = RoutingError.emptyTarget ∨ e = RoutingError.unknownTarget) ∧
    (respond (DispatchOutcome.routing RoutingError.emptyTarget)).status = 400 ∧
    (respond (DispatchOutcome.routing RoutingError.unknownTarget)).status = 404 := by
  refine ⟨?_, ?_, ?_, rfl, rfl⟩
  · intro reg path
    have key : classify reg path = Except.error RoutingError.emptyTarget ↔
        dropSlashes path = [] := by
      by_cases h0 : dropSlashes path = []
      · simp [classify, h0]
      · by_cases h1 : takeSeg (dropSlashes path) ∈ reg
        · simp [classify, h0, h1]
        · simp [classify, h0, h1]
    exact key.trans (dropSlashes_eq_nil_iff path)
  · intro reg path
    have key : classify reg path = Except.error RoutingError.unknownTarget ↔
        (¬ dropSlashes path = [] ∧ takeSeg (dropSlashes path) ∉ reg) := by
      by_cases h0 : dropSlashes path = []
      · simp [classify, h0]
      · by_cases h1 : takeSeg (dropSlashes path) ∈ reg
        · simp [classify, h0, h1]
        · simp [classify, h0, h1]
    rw [key, dropSlashes_eq_nil_iff]
  · intro reg path e h
    by_cases h0 : dropSlashes path = []
    · simp [classify, h0] at h
      exact Or.inl h.symm
    · by_cases h1 : takeSeg (dropSlashes path) ∈ reg
      · simp [classify, h0, h1] at h
      · simp [classify, h0, h1] at h
        exact Or.inr h.symm

/-- C2 witness: a path made of slashes only classifies as EmptyTarget. -/
theorem classify_error_characterisation_witness :
    classify [['a']] ['/', '/'] = Except.error RoutingError.emptyTarget :=
  (classify_error_characterisation.1 [['a']] ['/', '/']).mpr (by decide)

/-- Recording a non-failure outcome on a closed circuit only resets the
consecutive-failure count. -/
theorem recordOutcome_closed_success (F W t : Nat) (c : Circuit)
    (o : UpstreamOutcome) (hc : c.state = CircuitState.closed)
    (ho : isFailure o = false) :
    recordOutcome F W t c o = { c with consecutiveFailures := 0 } := by
  simp [recordOutcome, hc, ho]

/-- Recording a failure outcome on a closed circuit increments the
consecutive-failure run and opens the circuit exactly when the threshold is
reached within the window. -/
theorem recordOutcome_closed_fail (F W t : Nat) (c : Circuit)
    (o : UpstreamOutcome) (hc : c.state = CircuitState.closed)
    (ho : isFailure o = true) :
    recordOutcome F W t c o =
      (if F ≤ c.consecutiveFailures + 1 ∧
          t - (if c.consecutiveFailures = 0 then t else c.runStart) ≤ W then
        { state := .opened, consecutiveFailures := c.consecutiveFailures + 1,
          openedAt := t,
          runStart := if c.consecutiveFailures = 0 then t else c.runStart }
      else
        { c with consecutiveFailures := c.consecutiveFailures + 1,
                 runStart := if c.consecutiveFailures = 0 then t else c.runStart }) := by
  unfold recordOutcome
  rw [hc, ho]
  simp

/-- C6: with the default threshold F = 5 and window W = 60 s, a closed
circuit moves to open exactly when the recorded outcome is a failure that
brings the consecutive-failure count to F within the window; an upstream
4xx status is never a failure, and a closed circuit fed any sequence of
4xx outcomes stays closed forever. -/
theorem circuit_open_characterisation :
    defaultF = 5 ∧ defaultW = 60 ∧
    (∀ code : Nat, 400 ≤ code → code < 500 →
        isFailure (UpstreamOutcome.status code) = false) ∧
    (∀ (t : Nat) (c : Circuit) (o : UpstreamOutcome),
        c.state = CircuitState.closed →
        ((recordOutcome defaultF defaultW t c o).state = CircuitState.opened ↔
          (isFailure o = true ∧ defaultF ≤ c.consecutiveFailures + 1 ∧
            t - (if c.consecutiveFailures = 0 then t else c.runStart) ≤ defaultW))) ∧
    (∀ c : Circuit, c.state = CircuitState.closed →
        ∀ evs : List (Nat × Nat), (∀ p ∈ evs, 400 ≤ p.2 ∧ p.2 < 500) →
          (evs.foldl
              (fun a p => recordOutcome defaultF defaultW p.1 a (UpstreamOutcome.status p.2))
              c).state = CircuitState.closed) := by
  refine ⟨rfl, rfl, ?_, ?_, ?_⟩
  · intro code h1 h2
    simp only [isFailure, decide_eq_false_iff_not]
    omega
  · intro t c o hc
    by_cases ho : isFailure o = true
    · rw [recordOutcome_closed_fail defaultF defaultW t c o hc ho]
      by_cases hA : defaultF ≤ c.consecutiveFailures + 1 ∧
          t - (if c.consecutiveFailures = 0 then t else c.runStart) ≤ defaultW
      · rw [if_pos hA]
        constructor
        · intro _
          exact ⟨ho, hA.1, hA.2⟩
        · intro _
          rfl
      · rw [if_neg hA]
        constructor
        · intro hst
          exact absurd hst (by simp [hc])
        · intro hcon
          exact absurd ⟨hcon.2.1, hcon.2.2⟩ hA
    · have hfalse : isFailure o = false := by simpa using ho
      rw [recordOutcome_closed_success defaultF defaultW t c o hc hfalse]
      constructor
      · intro hst
        exact absurd hst (by simp [hc])
      · intro hcon
        exact absurd hcon.1 ho
  · intro c hc evs hall
    induction evs generalizing c with
    | nil => simpa using hc
    | cons p ps ih =>
        have h4 := hall p (by simp)
        have hfail : isFailure (UpstreamOutcome.status p.2) = false := by
          simp only [isFailure, decide_eq_false_iff_not]
          omega
        rw [List.foldl_cons]
        apply ih
        · rw [recordOutcome_closed_success _ _ _ _ _ hc hfail]
          simpa using hc
        · intro q hq
          exact hall q (by simp [hq])

/-- C6 witness: a 404 from upstream is not a circuit failure. -/
theorem circuit_open_characterisation_witness :
    isFailure (UpstreamOutcome.status 404) = false :=
  circuit_open_characterisation.2.2.1 404 (by decide) (by decide)

/-- Concrete upstream response that itself carries the proxy-origin
header. -/
def upstreamForged : Response :=
  { status := 200, headers := [("X-Proxy-Origin", "true")], body := [] }

/-- C7 counterexample: pass-through strips only hop-by-hop headers, so an
upstream response that itself contains X-Proxy-Origin: true still carries
the header after passing through the proxy; the unconditional reading of
the claim is false. -/
theorem passthrough_forged_header :
    hasHeaderVal (respond (DispatchOutcome.upstreamResponded upstreamForged))
      "X-Proxy-Origin" "true" = true := by
  decide

/-- C7 amended: every response the proxy originates — for every terminal
dispatch outcome other than an upstream response — carries the header
X-Proxy-Origin: true and one of the enumerated status codes, and the proxy
never adds that header to a passed-through upstream response: a
passed-through response carries it only if the upstream itself sent it. -/
theorem proxy_origin_header :
    (∀ o : DispatchOutcome,
        (∀ u : Response, o ≠ DispatchOutcome.upstreamResponded u) →
        hasHeaderVal (respond o) "X-Proxy-Origin" "true" = true ∧
        (respond o).status ∈ ([400, 401, 403, 404, 500, 502, 503, 504] : List Nat)) ∧
    (∀ u : Response, hasHeaderVal u "X-Proxy-Origin" "true" = false →
        hasHeaderVal (respond (DispatchOutcome.upstreamResponded u))
          "X-Proxy-Origin" "true" = false) := by
  constructor
  · intro o ho
    cases o with
    | missingCredentials => exact ⟨by decide, by decide⟩
    | invalidCredentials => exact ⟨by decide, by decide⟩
    | forbidden => exact ⟨by decide, by decide⟩
    | routing e =>
        cases e with
        | emptyTarget => exact ⟨by decide, by decide⟩
        | unknownTarget => exact ⟨by decide, by decide⟩
        | malformedRequest => exact ⟨by decide, by decide⟩
    | circuitOpen s =>
        refine ⟨?_, by simp [respond]⟩
        simp [respond, hasHeaderVal]
    | poolConfigError => exact ⟨by decide, by decide⟩
    | transportError => exact ⟨by decide, by decide⟩
    | deadlineExceeded => exact ⟨by decide, by decide⟩
    | upstreamResponded u => exact absurd rfl (ho u)
  · intro u hu
    cases hany : hasHeaderVal (respond (DispatchOutcome.upstreamResponded u))
        "X-Proxy-Origin" "true" with
    | false => rfl
    | true =>
        exfalso
        have hmem : hasHeaderVal u "X-Proxy-Origin" "true" = true := by
          simp only [respond, passThrough, hasHeaderVal, List.any_eq_true] at hany ⊢
          obtain ⟨p, hp, hval⟩ := hany
          exact ⟨p, (List.mem_filter.mp hp).1, hval⟩
        rw [hmem] at hu
        exact absurd hu (by decide)

/-- C7 witness: the 502 transport-error response carries the origin header
and an enumerated status. -/
theorem proxy_origin_header_witness :
    hasHeaderVal (respond DispatchOutcome.transportError) "X-Proxy-Origin" "true" = true ∧
    (respond DispatchOutcome.transportError).status ∈
      ([400, 401, 403, 404, 500, 502, 503, 504] : List Nat) :=
  proxy_origin_header.1 DispatchOutcome.transportError (fun _ h => nomatch h)

/-- Concrete request: GET to a debug path on Host localhost. -/
def reqGet : Request :=
  { method := "GET", host := "localhost", path := "/debug/pprof".toList,
    rawQuery := [], body := [] }

/-- C4 witness: the debug characterisation evaluated on a concrete enabled
configuration and matching request. -/
theorem debug_route_characterisation_witness :
    routeRequest cfgDebug reqGet = Handler.debug :=
  (debug_route_characterisation cfgDebug reqGet).mpr
    ⟨rfl, by decide, rfl, rfl⟩

/-- C3 amended witness: the shutdown behaviour evaluated at a successful
server shutdown. -/
theorem shutdown_behaviour_witness :
    Effect.serverShutdown ∈ (shutdown none).1 ∧
    Effect.poolShutdown ∉ (shutdown none).1 ∧
    (shutdown none).2 = none :=
  shutdown_behaviour none

/-- C9 witness: the constructor evaluated on a concrete configuration picks
the first configured address. -/
theorem newRedfishProxyServer_requires_address_witness :
    serverA.server.addr = cfgA.web.addresses.headD "" :=
  newRedfishProxyServer_requires_address.2 cfgA serverA (by decide)

end RedfishProxy
